import Mathlib

/-!
Verification of the Agar repository core against its specification.

The embedding below is shallow: the observation encoders of
`src/environment/envs/GridEnvironment.hpp` and
`src/environment/envs/FullEnvironment.hpp` and the pybind screen binding of
`src/environment/screen_env_bindings.cpp` are translated from their source;
the `Player`/`Cell` entity model, whose implementation files are not part of
`src/` (only `src/agario/test/test-core.hpp` exercises them), is modelled from
the specification's data-model section, constrained by the behaviour the
in-repo tests assert.  Coordinates, velocities and masses are modelled as
rationals (the C++ code uses floating-point `float`; the properties at stake
are exact-arithmetic properties on the inputs the spec and tests use).
-/

/-- A 2-d velocity, mirroring the `velocity.dx` / `velocity.dy` fields read by
the observation encoders. -/
structure Velocity where
  dx : ℚ
  dy : ℚ
deriving Repr, DecidableEq

/-- Modelled from the spec: `Cell` — position `(x, y)`, `mass`, `velocity
(dx, dy)` (§3); its implementation file is not under `src/`.  The fields are
exactly those the observation encoders and `test-core.hpp` read. -/
structure Cell where
  x : ℚ
  y : ℚ
  velocity : Velocity
  mass : ℚ
deriving Repr, DecidableEq

/-- A passive entity (Pellet, Virus or Food): the encoders read only its
`(x, y)` position. -/
structure Entity2 where
  x : ℚ
  y : ℚ
deriving Repr, DecidableEq

/-- Modelled from the spec: `Player` — identifier, name, and an ordered
collection of owned `Cell`s (§3); its implementation file is not under
`src/`. -/
structure Player where
  pid : Int
  name : String
  cells : List Cell
deriving Repr, DecidableEq

/-- Modelled from the spec: `Player::dead()` ⇔ cell collection empty (§3). -/
def Player.dead (p : Player) : Bool :=
  p.cells.isEmpty

/-- Modelled from the spec: `Player::add_cell(x, y, mass)` appends a new cell
(§3).  Per `TEST(Player, AddCell)` the appended cell carries exactly the given
position and mass; per `TEST(Player, Kill)` a mass of `0` is accepted
unchanged.  A fresh cell starts with zero velocity. -/
def Player.add_cell (p : Player) (x y m : ℚ) : Player :=
  { p with cells := p.cells ++ [⟨x, y, ⟨0, 0⟩, m⟩] }

/-- Modelled from the spec: `Player::kill()` clears all cells (§3). -/
def Player.kill (p : Player) : Player :=
  { p with cells := [] }

/-- Modelled from the spec: `Player::x()` — arithmetic mean of all owned
cells' x positions, guarded by `dead()` (§3); satisfies
`TEST(Player, SimpleLocation)` and `TEST(Player, Location)`. -/
def Player.x (p : Player) : ℚ :=
  (p.cells.map Cell.x).sum / (p.cells.length : ℚ)

/-- Modelled from the spec: `Player::y()` — arithmetic mean of all owned
cells' y positions, guarded by `dead()` (§3). -/
def Player.y (p : Player) : ℚ :=
  (p.cells.map Cell.y).sum / (p.cells.length : ℚ)

/-- The slice of `GameState` read by the observation constructors: the pellet,
virus and food vectors and the player map (iteration order as a list of
`(pid, player)` pairs). -/
structure GameState where
  pellets : List Entity2
  viruses : List Entity2
  foods : List Entity2
  players : List (Int × Player)
deriving Repr, DecidableEq

/-- One `(buffer, shape)` pair as pushed by `_store_entities`: the backing
float buffer and the shape descriptor `(count, attributes_per_entity)`
(`_shapes.push_back` of the two-element vector in the source). -/
structure StoredCategory where
  buffer : List ℚ
  shape : Nat × Nat
deriving Repr, DecidableEq

/-- The generic `_copy_entities` template of `GridObservation`: entity `i`
writes `(x, y)` at offsets `2 i` and `2 i + 1`. -/
def copyEntities2 (es : List Entity2) : List ℚ :=
  es.flatMap (fun e => [e.x, e.y])

/-- The Cell specialization of `_copy_entities` in `GridObservation`: cell `i`
writes `(x, y, velocity.dx, velocity.dy, mass)` at offsets `5 i .. 5 i + 4`. -/
def copyCells (cs : List Cell) : List ℚ :=
  cs.flatMap (fun c => [c.x, c.y, c.velocity.dx, c.velocity.dy, c.mass])

/-- Source `GridObservation::_store_entities<T, 2>`: allocates `2 * num` floats,
copies the entities, and pushes shape `(num, 2)`. -/
def storeEntities2 (es : List Entity2) : StoredCategory :=
  ⟨copyEntities2 es, (es.length, 2)⟩

/-- Source `GridObservation::_store_entities<Cell, 5>`: allocates `5 * num` floats,
copies the cells, and pushes shape `(num, 5)`. -/
def storeCells (cs : List Cell) : StoredCategory :=
  ⟨copyCells cs, (cs.length, 5)⟩

/-- Source `GridObservation::GridObservation(player, game_state)`: stores pellets,
viruses, foods, the controlled player's cells, then each player of the player
map in iteration order. -/
def GridObservation (player : Player) (gs : GameState) : List StoredCategory :=
  [storeEntities2 gs.pellets,
   storeEntities2 gs.viruses,
   storeEntities2 gs.foods,
   storeCells player.cells]
  ++ gs.players.map (fun pr => storeCells pr.2.cells)

/-- Source `GridObservation::data()`: the vector of buffers, in push order. -/
def obsData (obs : List StoredCategory) : List (List ℚ) :=
  obs.map StoredCategory.buffer

/-- Source `GridObservation::shapes()`: the vector of shapes, in push order. -/
def obsShapes (obs : List StoredCategory) : List (Nat × Nat) :=
  obs.map StoredCategory.shape

/-- The category push order of `FullObservation::FullObservation(player,
game_state)` (lines 37–44 of `FullEnvironment.hpp`): identical to
`GridObservation`'s.  Only the push order and the pushed shapes are embedded
here: the buffer allocation inside `FullObservation::_store_entities` is the
ill-formed expression `new float[NumAttr * entities]` (int times
`std::vector`), so no buffer contents exist to embed. -/
def FullObservationShapes (player : Player) (gs : GameState) : List (Nat × Nat) :=
  [(gs.pellets.length, 2),
   (gs.viruses.length, 2),
   (gs.foods.length, 2),
   (player.cells.length, 5)]
  ++ gs.players.map (fun pr => (pr.2.cells.length, 5))

/-- The constructor arguments forwarded to `BaseEnvironment` (its
implementation file is not under `src/`; only the forwarded argument list is
needed here). -/
structure BaseEnvironment where
  frames_per_step : Int
  arena_size : Int
  pellet_regen : Bool
  num_pellets : Int
  num_viruses : Int
  num_bots : Int
deriving Repr, DecidableEq

/-- The fields of `GridEnvironment` set by its constructor and by
`configure_observation`. -/
structure GridEnvironment where
  grid_size : Int
  arena_size : Int
  observe_cells : Bool
  observe_others : Bool
  observe_viruses : Bool
  observe_food : Bool
  base : BaseEnvironment
deriving Repr, DecidableEq

/-- Source `GridEnvironment::GridEnvironment(frames_per_step, arena_size,
pellet_regen, num_pellets, num_viruses, num_bots)`: the member initializer
list sets `_arena_size(1000)`, `_grid_size(128)` and all four observe flags to
`true`; the six arguments are forwarded only to `Super(...)`. -/
def GridEnvironment.construct (frames_per_step arena_size : Int)
    (pellet_regen : Bool) (num_pellets num_viruses num_bots : Int) :
    GridEnvironment :=
  { grid_size := 128
    arena_size := 1000
    observe_cells := true
    observe_others := true
    observe_viruses := true
    observe_food := true
    base := ⟨frames_per_step, arena_size, pellet_regen,
             num_pellets, num_viruses, num_bots⟩ }

/-- Source `GridEnvironment::configure_observation(grid_size, cells, others, viruses,
food)`: overwrites the five configuration fields. -/
def GridEnvironment.configure_observation (env : GridEnvironment)
    (grid_size : Int) (cells others viruses food : Bool) : GridEnvironment :=
  { env with
    grid_size := grid_size
    observe_cells := cells
    observe_others := others
    observe_viruses := viruses
    observe_food := food }

/-- The data `GridEnvironment::get_state` reads from the engine: the
controlled player (`engine.get_player(pid)`) and the game state. -/
structure EnvSnapshot where
  env : GridEnvironment
  player : Player
  state : GameState
deriving Repr, DecidableEq

/-- Source `GridEnvironment::get_state() const`: builds
`GridObservation(player, game_state)` from the engine's current data.  It is a
`const` member: the snapshot is returned unchanged.  Note that none of the
fields written by `configure_observation` are read. -/
def GridEnvironment.get_state (s : EnvSnapshot) :
    List StoredCategory × EnvSnapshot :=
  (GridObservation s.player s.state, s)

/-- Constant `PIXEL_SIZE` of `screen_env_bindings.cpp`. -/
def PIXEL_SIZE : Nat := 3

/-- Constant `Width` of `screen_env_bindings.cpp`. -/
def screenWidth : Nat := 256

/-- Constant `Height` of `screen_env_bindings.cpp`. -/
def screenHeight : Nat := 256

/-- Constant `NumFrames` of `screen_env_bindings.cpp`. -/
def NumFrames : Nat := 4

/-- Constant `observation_size = NumFrames * Width * Height
* PIXEL_SIZE`. -/
def observation_size : Nat := NumFrames * screenWidth * screenHeight * PIXEL_SIZE

/-- The numpy array descriptor produced by the bound `get_state` lambda:
`py::buffer_info(data, itemsize, format, ndim, shape, strides)`. -/
structure PyArray where
  itemsize : Nat
  ndim : Nat
  shape : List Nat
  strides : List Nat
  data : List Nat
deriving Repr, DecidableEq

/-- The bound `ScreenEnvironment::get_state` lambda: wraps
`observation.frame_data()` in a uint8 array of shape
`(NumFrames, Width, Height, PIXEL_SIZE)` with the strides computed in the
source.  The shape vector is built from compile-time constants, independent of
the environment's state (here: the raw frame bytes). -/
def screen_get_state (frame_data : List Nat) : PyArray :=
  { itemsize := 1
    ndim := 4
    shape := [NumFrames, screenWidth, screenHeight, PIXEL_SIZE]
    strides := [screenWidth * screenHeight * PIXEL_SIZE * 1,
                screenHeight * PIXEL_SIZE,
                PIXEL_SIZE * 1,
                1 * 1]
    data := frame_data }

/-- Modelled from the spec: the `Player(pid, name)` constructor — a newly
constructed player has an empty cell collection (`TEST(Player, Construct)`,
`TEST(Player, StartsDead)`); the implementation file is not under `src/`. -/
def Player.construct (pid : Int) (name : String) : Player :=
  ⟨pid, name, []⟩

/-- An operation on a single player's cell collection: the two mutators the
entity model exposes (`add_cell`, `kill`). -/
inductive PlayerOp where
  | addCell (x y m : ℚ)
  | kill
deriving Repr, DecidableEq

/-- An `add_cell` operation passes a positive mass (`kill` trivially does). -/
def PlayerOp.massPos : PlayerOp → Prop
  | .addCell _ _ m => 0 < m
  | .kill => True

instance (op : PlayerOp) : Decidable op.massPos := by
  cases op <;> simp [PlayerOp.massPos] <;> infer_instance

/-- Apply one operation to a player. -/
def Player.applyOp (p : Player) : PlayerOp → Player
  | .addCell x y m => p.add_cell x y m
  | .kill => p.kill

/-- Apply a sequence of operations to a player, in order. -/
def Player.applyOps (p : Player) (ops : List PlayerOp) : Player :=
  ops.foldl Player.applyOp p

/-- One cell of the world during consumption resolution, reduced to the data
the consumption rule reads: a stable identifier, the owning player, and the
mass. -/
structure WCell where
  id : Nat
  owner : Int
  mass : ℚ
deriving Repr, DecidableEq

/-- Modelled from the spec: the mass of the cell with identifier `i`
(identifier order is stable, §4.1 step 5). -/
def massOf (cells : List WCell) (i : Nat) : ℚ :=
  ((cells.find? (fun c => c.id = i)).map WCell.mass).getD 0

/-- Modelled from the spec: one consumption event of `Engine.advance` between
two player cells (§4.1 step 5, §8) — the eating cell `A` (identifier `aid`)
gains the eaten cell `B`'s mass and `B` (identifier `bid`) is destroyed; the
Engine implementation files are not under `src/`. -/
def consume (cells : List WCell) (aid bid : Nat) : List WCell :=
  (cells.filter (fun c => c.id ≠ bid)).map
    (fun c => if c.id = aid then { c with mass := c.mass + massOf cells bid } else c)

/-- Concrete player used to instantiate the theorems: the two-cell player of
`TEST(Player, Location)` (cells at `(100, 100)` and `(102, 102)`, mass 25). -/
def testPlayer : Player :=
  ((Player.construct 0 "TestPlayer").add_cell 100 100 25).add_cell 102 102 25

/-- Concrete operation sequence used to instantiate the positive-mass
invariant. -/
def opsW : List PlayerOp :=
  [.addCell 5 5 25, .kill, .addCell 1 2 3]

/-- Concrete two-cell world used to instantiate the consumption theorem. -/
def cellsW : List WCell :=
  [⟨0, 1, 10⟩, ⟨1, 2, 4⟩]

/-- Concrete controlled player used to instantiate the observation
theorems. -/
def pW : Player :=
  ⟨1, "me", [⟨3, 4, ⟨5, 6⟩, 7⟩]⟩

/-- Concrete game state used to instantiate the observation theorems: one
pellet, one virus, no food, and a player map containing the controlled
player. -/
def gsW : GameState :=
  ⟨[⟨1, 2⟩], [⟨8, 9⟩], [], [(1, pW)]⟩

/-- Concrete grid environment, as constructed. -/
def gridEnvW : GridEnvironment :=
  GridEnvironment.construct 4 1000 true 0 1 0

/-- The concrete grid environment after
`configure_observation(64, false, false, false, false)`. -/
def gridEnvWConfigured : GridEnvironment :=
  gridEnvW.configure_observation 64 false false false false

/-- Buffer length of the generic copy: two floats per entity. -/
lemma copyEntities2_length (es : List Entity2) :
    (copyEntities2 es).length = 2 * es.length := by
  induction es with
  | nil => rfl
  | cons e tl ih => simp [copyEntities2] at ih ⊢; omega

/-- Buffer length of the cell copy: five floats per cell. -/
lemma copyCells_length (cs : List Cell) :
    (copyCells cs).length = 5 * cs.length := by
  induction cs with
  | nil => rfl
  | cons c tl ih => simp [copyCells] at ih ⊢; omega

/-- Entry layout of the generic copy: entity `i` occupies offsets `2 i` and
`2 i + 1`. -/
lemma copyEntities2_get (es : List Entity2) (i : Nat) (h : i < es.length) :
    (copyEntities2 es)[2 * i]? = some ((es.get ⟨i, h⟩).x)
    ∧ (copyEntities2 es)[2 * i + 1]? = some ((es.get ⟨i, h⟩).y) := by
  induction es generalizing i with
  | nil => simp at h
  | cons e tl ih =>
    cases i with
    | zero => simp [copyEntities2]
    | succ j =>
      have hj : j < tl.length := Nat.lt_of_succ_lt_succ h
      have h2 : 2 * (j + 1) = 2 * j + 1 + 1 := by ring
      have hx := (ih j hj).1
      have hy := (ih j hj).2
      constructor
      · rw [h2]
        simpa [copyEntities2] using hx
      · rw [h2]
        simpa [copyEntities2] using hy

/-- Entry layout of the cell copy: cell `i` occupies offsets `5 i` through
`5 i + 4` in the order `(x, y, velocity.dx, velocity.dy, mass)`. -/
lemma copyCells_get (cs : List Cell) (i : Nat) (h : i < cs.length) :
    (copyCells cs)[5 * i]? = some ((cs.get ⟨i, h⟩).x)
    ∧ (copyCells cs)[5 * i + 1]? = some ((cs.get ⟨i, h⟩).y)
    ∧ (copyCells cs)[5 * i + 2]? = some ((cs.get ⟨i, h⟩).velocity.dx)
    ∧ (copyCells cs)[5 * i + 3]? = some ((cs.get ⟨i, h⟩).velocity.dy)
    ∧ (copyCells cs)[5 * i + 4]? = some ((cs.get ⟨i, h⟩).mass) := by
  induction cs generalizing i with
  | nil => simp at h
  | cons c tl ih =>
    cases i with
    | zero => simp [copyCells]
    | succ j =>
      have hj : j < tl.length := Nat.lt_of_succ_lt_succ h
      have h5 : 5 * (j + 1) = 5 * j + 1 + 1 + 1 + 1 + 1 := by ring
      obtain ⟨h1, h2, h3, h4, h5m⟩ := ih j hj
      refine ⟨?_, ?_, ?_, ?_, ?_⟩
      · rw [h5]; simpa [copyCells] using h1
      · rw [h5]; simpa [copyCells] using h2
      · rw [h5]; simpa [copyCells] using h3
      · rw [h5]; simpa [copyCells] using h4
      · rw [h5]; simpa [copyCells] using h5m

/-- With pairwise-distinct identifiers, a cell is determined by its
identifier. -/
lemma wcell_id_inj (cells : List WCell) (hn : (cells.map WCell.id).Nodup) :
    ∀ a ∈ cells, ∀ b ∈ cells, a.id = b.id → a = b := by
  induction cells with
  | nil => intro a ha; simp at ha
  | cons c tl ih =>
    rw [List.map_cons, List.nodup_cons] at hn
    intro a ha b hb he
    rcases List.mem_cons.mp ha with rfl | hat
    · rcases List.mem_cons.mp hb with rfl | hbt
      · rfl
      · exact absurd (he ▸ List.mem_map_of_mem WCell.id hbt) hn.1
    · rcases List.mem_cons.mp hb with rfl | hbt
      · exact absurd (he ▸ List.mem_map_of_mem WCell.id hat) hn.1
      · exact ih hn.2 a hat b hbt he

/-- With pairwise-distinct identifiers, searching for `b`'s identifier finds
exactly `b`. -/
lemma find_id_of_nodup (cells : List WCell) (b : WCell)
    (hn : (cells.map WCell.id).Nodup) (hb : b ∈ cells) :
    cells.find? (fun c => c.id = b.id) = some b := by
  induction cells with
  | nil => simp at hb
  | cons c tl ih =>
    rw [List.map_cons, List.nodup_cons] at hn
    rcases List.mem_cons.mp hb with rfl | hbt
    · simp [List.find?]
    · have hne : ¬ (c.id = b.id) := by
        intro he
        exact hn.1 (he ▸ List.mem_map_of_mem WCell.id hbt)
      rw [List.find?_cons_of_neg _ (by simpa using hne)]
      exact ih hn.2 hbt

/-- With pairwise-distinct identifiers, `massOf` on a member's identifier is
that member's mass. -/
lemma massOf_of_mem (cells : List WCell) (b : WCell)
    (hn : (cells.map WCell.id).Nodup) (hb : b ∈ cells) :
    massOf cells b.id = b.mass := by
  rw [massOf, find_id_of_nodup cells b hn hb]
  rfl

/-- Applying operations that all pass positive mass preserves
all-cells-positive. -/
lemma applyOps_mass_pos (ops : List PlayerOp) :
    ∀ p : Player, (∀ c ∈ p.cells, 0 < c.mass) → (∀ op ∈ ops, op.massPos) →
    ∀ c ∈ (p.applyOps ops).cells, 0 < c.mass := by
  induction ops with
  | nil => intro p hp _; simpa [Player.applyOps] using hp
  | cons op tl ih =>
    intro p hp hops
    have hstep : ∀ c ∈ (p.applyOp op).cells, 0 < c.mass := by
      cases op with
      | addCell x y m =>
        intro c hc
        have hc2 : c ∈ p.cells ∨ c = (⟨x, y, ⟨0, 0⟩, m⟩ : Cell) := by
          simpa [Player.applyOp, Player.add_cell] using hc
        rcases hc2 with hold | rfl
        · exact hp c hold
        · exact hops _ (List.mem_cons_self _ _)
      | kill => intro c hc; simp [Player.applyOp, Player.kill] at hc
    have := ih (p.applyOp op) hstep (fun o ho => hops o (List.mem_cons_of_mem _ ho))
    simpa [Player.applyOps, List.foldl_cons] using this

/-- C6: a newly constructed player is dead with an empty cell collection;
after any `add_cell` call it is alive; after `kill()` it is dead with zero
cells; and `dead()` holds if and only if the cell collection is empty. -/
theorem player_lifecycle :
    (∀ (i : Int) (nm : String),
      (Player.construct i nm).dead = true ∧ (Player.construct i nm).cells.length = 0)
    ∧ (∀ (p : Player) (x y m : ℚ), (p.add_cell x y m).dead = false)
    ∧ (∀ p : Player, p.kill.dead = true ∧ p.kill.cells.length = 0)
    ∧ (∀ p : Player, p.dead = true ↔ p.cells = []) := by
  refine ⟨fun i nm => ⟨rfl, rfl⟩, fun p x y m => ?_, fun p => ⟨rfl, rfl⟩, fun p => ?_⟩
  · simp [Player.add_cell, Player.dead]
  · simp [Player.dead, List.isEmpty_iff]

/-- C5: `player.x()` and `player.y()` are the arithmetic mean of the owned
cells' positions, independent of the cells' masses: for any player with cells,
`count * x() = sum of cell x positions` (likewise `y`); a player with cells at
`(0, 0)` and `(2, 2)` of any masses has `x() = 1` and `y() = 1`; and the
single-cell case of `TEST(Player, SimpleLocation)` holds for any mass. -/
theorem player_location :
    (∀ p : Player, p.cells ≠ [] →
      (p.cells.length : ℚ) * p.x = (p.cells.map Cell.x).sum
      ∧ (p.cells.length : ℚ) * p.y = (p.cells.map Cell.y).sum)
    ∧ (∀ (i : Int) (nm : String) (m1 m2 : ℚ),
      (((Player.construct i nm).add_cell 0 0 m1).add_cell 2 2 m2).x = 1
      ∧ (((Player.construct i nm).add_cell 0 0 m1).add_cell 2 2 m2).y = 1)
    ∧ (∀ (i : Int) (nm : String) (x y m : ℚ),
      ((Player.construct i nm).add_cell x y m).x = x
      ∧ ((Player.construct i nm).add_cell x y m).y = y) := by
  refine ⟨fun p hp => ?_, fun i nm m1 m2 => ?_, fun i nm x y m => ?_⟩
  · have hlen : ((p.cells.length : ℚ)) ≠ 0 := by
      have : 0 < p.cells.length := List.length_pos.mpr hp
      exact_mod_cast Nat.pos_iff_ne_zero.mp this
    constructor
    · rw [Player.x, mul_comm]
      exact div_mul_cancel₀ _ hlen
    · rw [Player.y, mul_comm]
      exact div_mul_cancel₀ _ hlen
  · constructor <;>
      simp [Player.construct, Player.add_cell, Player.x, Player.y]
  · constructor <;>
      simp [Player.construct, Player.add_cell, Player.x, Player.y]

/-- Witness for C5: the centroid identity instantiated at the player of
`TEST(Player, Location)`. -/
theorem player_location_witness :
    (testPlayer.cells.length : ℚ) * testPlayer.x = (testPlayer.cells.map Cell.x).sum
    ∧ (testPlayer.cells.length : ℚ) * testPlayer.y = (testPlayer.cells.map Cell.y).sum :=
  player_location.1 testPlayer
    (by simp [testPlayer, Player.construct, Player.add_cell])

/-- Counterexample to C3 as stated: `Player.add_cell` with mass `0` — the call
made by `TEST(Player, Kill)` itself — leaves the player alive while owning a
cell of mass zero. -/
theorem add_cell_zero_mass_alive :
    ((Player.construct 0 "TestPlayer").add_cell 0 0 0).dead = false
    ∧ ∃ c ∈ ((Player.construct 0 "TestPlayer").add_cell 0 0 0).cells, c.mass = 0 := by
  refine ⟨rfl, ⟨⟨0, 0, ⟨0, 0⟩, 0⟩, ?_, rfl⟩⟩
  simp [Player.construct, Player.add_cell]

/-- C3 amended: `add_cell` appends a cell with exactly the given mass (so it
does not itself enforce positivity), and the `mass > 0` invariant holds
whenever every `add_cell` in the player's operation history passed a positive
mass. -/
theorem add_cell_positive_mass_invariant :
    (∀ (p : Player) (x y m : ℚ),
      (p.add_cell x y m).cells.map Cell.mass = p.cells.map Cell.mass ++ [m])
    ∧ ∀ ops : List PlayerOp, (∀ op ∈ ops, op.massPos) →
      ∀ (i : Int) (nm : String), ∀ c ∈ ((Player.construct i nm).applyOps ops).cells,
        0 < c.mass := by
  constructor
  · intro p x y m
    simp [Player.add_cell]
  · intro ops hops i nm
    exact applyOps_mass_pos ops (Player.construct i nm) (by simp [Player.construct]) hops

/-- Witness for C3's amended theorem: after the concrete history `opsW`
(all positive masses), the surviving cell has positive mass. -/
theorem add_cell_positive_mass_invariant_witness :
    (⟨1, 2, ⟨0, 0⟩, 3⟩ : Cell) ∈ ((Player.construct 0 "A").applyOps opsW).cells
    ∧ 0 < (Cell.mk 1 2 ⟨0, 0⟩ 3).mass := by
  have hmem : (⟨1, 2, ⟨0, 0⟩, 3⟩ : Cell) ∈ ((Player.construct 0 "A").applyOps opsW).cells := by
    simp [opsW, Player.applyOps, Player.applyOp, Player.construct, Player.add_cell, Player.kill]
  refine ⟨hmem, ?_⟩
  exact add_cell_positive_mass_invariant.2 opsW
    (by intro op hop; fin_cases hop <;> simp [PlayerOp.massPos])
    0 "A" _ hmem

/-- C7: in a consumption event between cells of different owners (identifiers
pairwise distinct), the eating cell's mass afterward equals its mass before
plus the eaten cell's mass before, and the eaten cell is absent afterward. -/
theorem consume_mass_conservation (cells : List WCell) (a b : WCell)
    (ha : a ∈ cells) (hb : b ∈ cells)
    (hn : (cells.map WCell.id).Nodup) (howner : a.owner ≠ b.owner) :
    (∃ c ∈ consume cells a.id b.id, c.id = a.id ∧ c.mass = a.mass + b.mass)
    ∧ ∀ c ∈ consume cells a.id b.id, c.id ≠ b.id := by
  have hab : a.id ≠ b.id := by
    intro he
    exact howner (congrArg WCell.owner (wcell_id_inj cells hn a ha b hb he))
  constructor
  · have hafilter : a ∈ cells.filter (fun c => c.id ≠ b.id) := by
      rw [List.mem_filter]
      exact ⟨ha, by simpa using hab⟩
    refine ⟨{ a with mass := a.mass + massOf cells b.id }, ?_, rfl, ?_⟩
    · have := List.mem_map_of_mem
        (fun c => if c.id = a.id then { c with mass := c.mass + massOf cells b.id } else c)
        hafilter
      simpa [consume] using this
    · rw [massOf_of_mem cells b hn hb]
  · intro c hc
    rw [consume, List.mem_map] at hc
    obtain ⟨d, hd, hdc⟩ := hc
    rw [List.mem_filter] at hd
    have hdid : d.id ≠ b.id := by simpa using hd.2
    subst hdc
    by_cases hda : d.id = a.id
    · simpa [hda] using hab
    · simp [hda, hdid]

/-- Witness for C7: in the two-cell world `cellsW`, cell 0 (owner 1, mass 10)
eats cell 1 (owner 2, mass 4): afterwards a cell with identifier 0 has mass
14 and no cell with identifier 1 remains. -/
theorem consume_mass_conservation_witness :
    (⟨0, 1, 10⟩ : WCell) ∈ cellsW
    ∧ ((∃ c ∈ consume cellsW 0 1, c.id = 0 ∧ c.mass = 10 + 4)
       ∧ ∀ c ∈ consume cellsW 0 1, c.id ≠ 1) :=
  ⟨by decide,
   consume_mass_conservation cellsW ⟨0, 1, 10⟩ ⟨1, 2, 4⟩
     (by decide) (by decide) (by decide) (by decide)⟩

/-- C1 (grid side): every category stored by `GridObservation` has shape
`(count, attributes_per_entity)` with 2 attributes for pellets/viruses/food
and 5 for cells, a backing buffer of exactly `count * attributes_per_entity`
floats, and entry `i` of a buffer holds `(x, y)` of entity `i` for non-cell
categories and `(x, y, velocity.dx, velocity.dy, mass)` of cell `i` for cell
categories. -/
theorem grid_observation_layout (p : Player) (gs : GameState) :
    (obsShapes (GridObservation p gs) =
      [(gs.pellets.length, 2), (gs.viruses.length, 2), (gs.foods.length, 2),
       (p.cells.length, 5)] ++ gs.players.map (fun pr => (pr.2.cells.length, 5)))
    ∧ (∀ cat ∈ GridObservation p gs,
      cat.buffer.length = cat.shape.1 * cat.shape.2)
    ∧ (∀ (es : List Entity2) (i : Nat) (h : i < es.length),
      (copyEntities2 es)[2 * i]? = some ((es.get ⟨i, h⟩).x)
      ∧ (copyEntities2 es)[2 * i + 1]? = some ((es.get ⟨i, h⟩).y))
    ∧ (∀ (cs : List Cell) (i : Nat) (h : i < cs.length),
      (copyCells cs)[5 * i]? = some ((cs.get ⟨i, h⟩).x)
      ∧ (copyCells cs)[5 * i + 1]? = some ((cs.get ⟨i, h⟩).y)
      ∧ (copyCells cs)[5 * i + 2]? = some ((cs.get ⟨i, h⟩).velocity.dx)
      ∧ (copyCells cs)[5 * i + 3]? = some ((cs.get ⟨i, h⟩).velocity.dy)
      ∧ (copyCells cs)[5 * i + 4]? = some ((cs.get ⟨i, h⟩).mass)) := by
  refine ⟨?_, ?_, copyEntities2_get, copyCells_get⟩
  · simp [GridObservation, obsShapes, storeEntities2, storeCells]
  · intro cat hcat
    rw [GridObservation, List.mem_append] at hcat
    rcases hcat with hfixed | hplayers
    · fin_cases hfixed <;>
        simp [storeEntities2, storeCells, copyEntities2_length, copyCells_length,
              Nat.mul_comm]
    · rw [List.mem_map] at hplayers
      obtain ⟨pr, _, hpr⟩ := hplayers
      subst hpr
      simp [storeCells, copyCells_length, Nat.mul_comm]

/-- Witness for C1: the layout theorem instantiated at the concrete state
`gsW` — buffer size of the controlled player's cell category, and the entry
layout of the pellet buffer and of the cell buffer at index 0. -/
theorem grid_observation_layout_witness :
    ((storeCells pW.cells).buffer.length
      = (storeCells pW.cells).shape.1 * (storeCells pW.cells).shape.2)
    ∧ ((copyEntities2 gsW.pellets)[2 * 0]? = some ((gsW.pellets.get ⟨0, by decide⟩).x)
      ∧ (copyEntities2 gsW.pellets)[2 * 0 + 1]? = some ((gsW.pellets.get ⟨0, by decide⟩).y))
    ∧ ((copyCells pW.cells)[5 * 0]? = some ((pW.cells.get ⟨0, by decide⟩).x)
      ∧ (copyCells pW.cells)[5 * 0 + 1]? = some ((pW.cells.get ⟨0, by decide⟩).y)
      ∧ (copyCells pW.cells)[5 * 0 + 2]? = some ((pW.cells.get ⟨0, by decide⟩).velocity.dx)
      ∧ (copyCells pW.cells)[5 * 0 + 3]? = some ((pW.cells.get ⟨0, by decide⟩).velocity.dy)
      ∧ (copyCells pW.cells)[5 * 0 + 4]? = some ((pW.cells.get ⟨0, by decide⟩).mass)) :=
  ⟨(grid_observation_layout pW gsW).2.1 (storeCells pW.cells)
     (by simp [GridObservation]),
   (grid_observation_layout pW gsW).2.2.1 gsW.pellets 0 (by decide),
   (grid_observation_layout pW gsW).2.2.2 pW.cells 0 (by decide)⟩

/-- C9: `data()` and `shapes()` have equal length `4 + number of players in
the player map`; the buffers appear in the order pellets, viruses, foods,
controlled player's cells, then one buffer per player-map entry in iteration
order (`FullObservation` pushes the same categories in the same order); and
when the controlled player occurs in the player map, its cell buffer appears
both at index 3 and at its map position. -/
theorem observation_category_order (p : Player) (gs : GameState) :
    (obsData (GridObservation p gs)).length = 4 + gs.players.length
    ∧ (obsShapes (GridObservation p gs)).length = 4 + gs.players.length
    ∧ obsData (GridObservation p gs) =
        [copyEntities2 gs.pellets, copyEntities2 gs.viruses, copyEntities2 gs.foods,
         copyCells p.cells] ++ gs.players.map (fun pr => copyCells pr.2.cells)
    ∧ FullObservationShapes p gs = obsShapes (GridObservation p gs)
    ∧ ∀ (j : Nat) (h : j < gs.players.length), (gs.players.get ⟨j, h⟩).2 = p →
        (obsData (GridObservation p gs))[3]? = some (copyCells p.cells)
        ∧ (obsData (GridObservation p gs))[4 + j]? = some (copyCells p.cells) := by
  refine ⟨?_, ?_, ?_, ?_, ?_⟩
  · simp [obsData, GridObservation]; omega
  · simp [obsShapes, GridObservation]; omega
  · simp [obsData, GridObservation, storeEntities2, storeCells]
  · simp [obsShapes, GridObservation, storeEntities2, storeCells,
          FullObservationShapes]
  · intro j h hjp
    constructor
    · simp [obsData, GridObservation, storeCells]
    · have hlen :
        ([copyEntities2 gs.pellets, copyEntities2 gs.viruses, copyEntities2 gs.foods,
          copyCells p.cells] : List (List ℚ)).length = 4 := rfl
      rw [show obsData (GridObservation p gs) =
            [copyEntities2 gs.pellets, copyEntities2 gs.viruses, copyEntities2 gs.foods,
             copyCells p.cells] ++ gs.players.map (fun pr => copyCells pr.2.cells) by
          simp [obsData, GridObservation, storeEntities2, storeCells]]
      rw [List.getElem?_append_right (by omega)]
      simp only [hlen, Nat.add_sub_cancel_left, List.getElem?_map]
      rw [List.getElem?_eq_getElem h]
      have hcc : copyCells gs.players[j].2.cells = copyCells p.cells :=
        congrArg (fun pl : Player => copyCells pl.cells) hjp
      simp [hcc]

/-- Witness for C9: in `gsW` the controlled player `pW` is entry 0 of the
player map, so its cell buffer appears at indices 3 and 4 of `data()`. -/
theorem observation_category_order_witness :
    (obsData (GridObservation pW gsW))[3]? = some (copyCells pW.cells)
    ∧ (obsData (GridObservation pW gsW))[4 + 0]? = some (copyCells pW.cells) :=
  (observation_category_order pW gsW).2.2.2.2 0 (by decide) rfl

/-- Refutation of C2 on the code: `configure_observation` records the grid
size and category flags, but `get_state` never reads them — two environments
with different configurations produce identical observations, and after
`configure_observation(64, false, false, false, false)` the observation of
the concrete state `gsW` still contains the virus, food and cell categories
(shapes `(1,2)` for pellets, `(1,2)` for viruses, `(0,2)` for foods, `(1,5)`
for own cells, `(1,5)` for the mapped player). -/
theorem configure_observation_ignored :
    gridEnvWConfigured.observe_cells = false
    ∧ gridEnvWConfigured.observe_others = false
    ∧ gridEnvWConfigured.observe_viruses = false
    ∧ gridEnvWConfigured.observe_food = false
    ∧ gridEnvWConfigured.grid_size = 64
    ∧ (∀ (e1 e2 : GridEnvironment) (p : Player) (gs : GameState),
      (GridEnvironment.get_state ⟨e1, p, gs⟩).1 = (GridEnvironment.get_state ⟨e2, p, gs⟩).1)
    ∧ obsShapes (GridEnvironment.get_state ⟨gridEnvWConfigured, pW, gsW⟩).1
        = [(1, 2), (1, 2), (0, 2), (1, 5), (1, 5)] := by
  refine ⟨rfl, rfl, rfl, rfl, rfl, fun e1 e2 p gs => rfl, ?_⟩
  simp [GridEnvironment.get_state, GridObservation, obsShapes, storeEntities2,
        storeCells, pW, gsW]

/-- C4 (grid side): `GridEnvironment::get_state` is a `const` member built
from const references — it leaves the environment snapshot unchanged, and a
second call without an intervening `step()` returns the identical
observation. -/
theorem grid_get_state_pure (s : EnvSnapshot) :
    (GridEnvironment.get_state s).2 = s
    ∧ (GridEnvironment.get_state ((GridEnvironment.get_state s).2)).1
        = (GridEnvironment.get_state s).1 :=
  ⟨rfl, rfl⟩

/-- C8: the bound `ScreenEnvironment::get_state` wraps the frame data in a
uint8 array of fixed shape `(NumFrames, Width, Height, PIXEL_SIZE) =
(4, 256, 256, 3)`, independent of the environment's state, and
`observation_size = 4 * 256 * 256 * 3`. -/
theorem screen_observation_shape (frame_data : List Nat) :
    (screen_get_state frame_data).shape = [4, 256, 256, 3]
    ∧ (screen_get_state frame_data).itemsize = 1
    ∧ (screen_get_state frame_data).ndim = 4
    ∧ observation_size = 4 * 256 * 256 * 3
    ∧ ∀ fd2 : List Nat,
        (screen_get_state frame_data).shape = (screen_get_state fd2).shape :=
  ⟨rfl, rfl, rfl, rfl, fun _ => rfl⟩

/-- C10: whatever six arguments the `GridEnvironment` constructor receives,
the stored `_arena_size` is `1000` and `_grid_size` is `128`; the arguments
themselves are forwarded only to the base environment. -/
theorem grid_environment_constants (fps asz : Int) (pr : Bool) (np nv nb : Int) :
    (GridEnvironment.construct fps asz pr np nv nb).arena_size = 1000
    ∧ (GridEnvironment.construct fps asz pr np nv nb).grid_size = 128
    ∧ (GridEnvironment.construct fps asz pr np nv nb).base
        = ⟨fps, asz, pr, np, nv, nb⟩ :=
  ⟨rfl, rfl, rfl⟩
